import Mathlib

/-!
Shallow embedding of `app/video_processor.py` (class `DanceMovementAnalyzer`).

The embedding models, straight from the source:
  * the per-frame processing loop of `process_video` (lines 268-370),
  * the result assembly and statistics (lines 378-407, 430-448),
  * `_validate_video_file` (lines 94-168),
  * `_get_output_codec` (lines 170-203),
  * the `_get_pose_detector` context manager (lines 55-92),
  * `process_video_with_retry` (lines 450-480).

Machine floats of the Python code are modelled as rationals; OpenCV and
MediaPipe are modelled as environments (the decoded frame stream, the
per-frame estimator outcome, codec availability) that the embedded code
consumes.
-/

namespace DanceAnalyzer

/-- One pose landmark as extracted at lines 322-328: four float fields. -/
structure Landmark where
  x : ℚ
  y : ℚ
  z : ℚ
  visibility : ℚ
deriving Repr, DecidableEq

/-- Outcome of `pose.process(image_rgb)` on one frame (lines 293-308):
the call can raise, return no landmarks (`results.pose_landmarks is None`),
or return a landmark list. -/
inductive EstOutcome where
  | throws
  | noPose
  | detected (landmarks : List Landmark)
deriving Repr, DecidableEq

/-- One successfully returned read from `cap.read()` (line 271) together with
the environment's behaviour on it.  `decodeOk` is false when the returned
frame is `None` or has size 0 (line 279).  `renderFails` says whether the
`draw_landmarks`/keypoint-extraction block (lines 311-335) raises; it is only
consulted when `est` is `detected`. -/
structure Frame where
  decodeOk : Bool
  est : EstOutcome
  renderFails : Bool
deriving Repr, DecidableEq

/-- One entry of `keypoints_data` (lines 330-334). -/
structure KeypointsEntry where
  frame : ℕ
  landmarks : List Landmark
  timestamp : ℚ
deriving Repr, DecidableEq

/-- What kind of frame was written by `out.write` on each path:
`original` is the unannotated frame written at line 299 after an estimation
failure; `status skeleton` is the frame written at line 354, which always
carries the status caption (line 343) and carries the skeleton overlay
exactly when `draw_landmarks` ran without raising. -/
inductive WriteKind where
  | original
  | status (skeleton : Bool)
deriving Repr, DecidableEq

/-- The mutable state of the frame loop (lines 260-263) plus the sequence of
frames written to the output sink. -/
structure LoopState where
  frame_count : ℕ
  detected_frames : ℕ
  failed_frames : ℕ
  keypoints_data : List KeypointsEntry
  written : List WriteKind
deriving Repr, DecidableEq

/-- Initial loop state (lines 260-263). -/
def initState : LoopState := ⟨0, 0, 0, [], []⟩

/-- One iteration of the frame loop (lines 270-370) on a successfully
returned read.  Branches, in source order:
frame `None`/empty (lines 279-282): count a failure and `continue` without
writing or incrementing `frame_count`; `pose.process` raises (lines
293-301): count a failure, write the original frame, increment
`frame_count`; landmarks detected (lines 308-335): count a detection and,
when the drawing/extraction block does not raise, append one keypoints
entry with the current `frame_count` and timestamp `frame_count / fps`;
in every non-skipped branch the frame is written and `frame_count`
incremented (lines 354-355). -/
def processFrame (fps : ℚ) (s : LoopState) (f : Frame) : LoopState :=
  if f.decodeOk = false then
    { s with failed_frames := s.failed_frames + 1 }
  else
    match f.est with
    | .throws =>
        { s with failed_frames := s.failed_frames + 1,
                 written := s.written ++ [.original],
                 frame_count := s.frame_count + 1 }
    | .noPose =>
        { s with written := s.written ++ [.status false],
                 frame_count := s.frame_count + 1 }
    | .detected lms =>
        { s with detected_frames := s.detected_frames + 1,
                 keypoints_data :=
                   if f.renderFails then s.keypoints_data
                   else s.keypoints_data ++
                     [⟨s.frame_count, lms, (s.frame_count : ℚ) / fps⟩],
                 written := s.written ++ [.status (!f.renderFails)],
                 frame_count := s.frame_count + 1 }

/-- The whole frame loop: fold `processFrame` over the stream of
successfully returned reads (the loop exits when `cap.read()` reports
no success, line 273). -/
def processFrames (fps : ℚ) (frames : List Frame) : LoopState :=
  frames.foldl (processFrame fps) initState

/-- Python `round(x, 3)` rounds half to even; model on rationals. -/
def roundHalfEven (q : ℚ) : ℤ :=
  if q - ⌊q⌋ < 1/2 then ⌊q⌋
  else if 1/2 < q - ⌊q⌋ then ⌊q⌋ + 1
  else if ⌊q⌋ % 2 = 0 then ⌊q⌋ else ⌊q⌋ + 1

/-- Rounding to three decimal places, as `round(x, 3)` at line 444. -/
def round3 (q : ℚ) : ℚ := (roundHalfEven (q * 1000) : ℚ) / 1000

/-- `_calculate_average_visibility` (lines 430-448): `None` on an empty
`keypoints_data`; otherwise accumulate every landmark's visibility and a
count over the nested loops (lines 439-442) and return the rounded mean,
or `None` when the count is zero. -/
def calculate_average_visibility (keypoints_data : List KeypointsEntry) :
    Option ℚ :=
  if keypoints_data.isEmpty then none
  else
    let acc := keypoints_data.foldl
      (fun (tc : ℚ × ℕ) fd =>
        fd.landmarks.foldl
          (fun (tc : ℚ × ℕ) lm => (tc.1 + lm.visibility, tc.2 + 1)) tc)
      (0, 0)
    if 0 < acc.2 then some (round3 (acc.1 / (acc.2 : ℚ))) else none

/-- The fields of the result dictionary (lines 390-407) that the claims are
about; rates are kept as the rational values formatted at lines 399-400. -/
structure JobResult where
  success : Bool
  total_frames : ℕ
  processed_frames : ℕ
  detected_frames : ℕ
  failed_frames : ℕ
  detection_rate : ℚ
  failed_rate : ℚ
  keypoints_count : ℕ
  average_visibility : Option ℚ
deriving Repr, DecidableEq

/-- Statistics and result assembly of a completed run (lines 378-407).
`total_frames` is the frame count taken from the validated metadata
(line 235); `processed_frames` is the loop's `frame_count` (line 396). -/
def buildResult (total_frames : ℕ) (s : LoopState) : JobResult :=
  { success := true
    total_frames := total_frames
    processed_frames := s.frame_count
    detected_frames := s.detected_frames
    failed_frames := s.failed_frames
    detection_rate :=
      if 0 < total_frames then (s.detected_frames : ℚ) / (total_frames : ℚ) * 100 else 0
    failed_rate :=
      if 0 < total_frames then (s.failed_frames : ℚ) / (total_frames : ℚ) * 100 else 0
    keypoints_count := s.keypoints_data.length
    average_visibility := calculate_average_visibility s.keypoints_data }

/-- `process_video` on a validated input: run the loop over the decoded
stream and assemble the result (successful-completion path). -/
def process_video (fps : ℚ) (total_frames : ℕ) (frames : List Frame) : JobResult :=
  buildResult total_frames (processFrames fps frames)

/-! `_validate_video_file` (lines 94-168). -/

/-- Class constant `MAX_VIDEO_DURATION` (line 22). -/
def MAX_VIDEO_DURATION : ℚ := 600

/-- Class constant `MAX_FILE_SIZE_MB` (line 23). -/
def MAX_FILE_SIZE_MB : ℚ := 500

/-- What the filesystem and `cv2.VideoCapture` report about one input path:
existence and byte size of the file, whether `cap.isOpened()` holds, and the
four properties read at lines 134-137 (`fps` as a float, the other three
truncated to `int`, hence modelled as integers that may be nonpositive). -/
structure FileInfo where
  fileExists : Bool
  sizeBytes : ℕ
  openable : Bool
  fps : ℚ
  frameCount : ℤ
  width : ℤ
  height : ℤ
deriving Repr, DecidableEq

/-- The distinct `VideoProcessingError` raise sites of `_validate_video_file`,
in source order (lines 111, 116, 122, 129, 143, 146, 149, 154). -/
inductive ValidationError where
  | fileNotFound
  | fileTooLarge
  | fileEmpty
  | cannotOpen
  | invalidFps
  | noFrames
  | invalidResolution
  | videoTooLong
deriving Repr, DecidableEq

/-- The metadata dictionary returned at lines 158-165. -/
structure VideoMetadata where
  fps : ℚ
  frame_count : ℤ
  width : ℤ
  height : ℤ
  duration : ℚ
  file_size_mb : ℚ
deriving Repr, DecidableEq

/-- Result of `_validate_video_file` together with the handle events it
performed: how many times a capture was opened (line 125), how many times it
was released (lines 128, 139), and how many frames were read (the function
never calls `cap.read()`, so this is 0 on every path). -/
structure ValidateTrace where
  result : Except ValidationError VideoMetadata
  opens : ℕ
  releases : ℕ
  framesRead : ℕ

/-- `duration = frame_count / fps if fps > 0 else 0` (line 151). -/
def computedDuration (frameCount : ℤ) (fps : ℚ) : ℚ :=
  if 0 < fps then (frameCount : ℚ) / fps else 0

/-- `_validate_video_file` (lines 94-168), with the checks in source order:
existence, size above the cap, empty file, openability, FPS range, frame
count, resolution, duration cap. -/
def validate_video_file (f : FileInfo) : ValidateTrace :=
  if f.fileExists = false then ⟨.error .fileNotFound, 0, 0, 0⟩
  else if MAX_FILE_SIZE_MB < (f.sizeBytes : ℚ) / (1024 * 1024) then
    ⟨.error .fileTooLarge, 0, 0, 0⟩
  else if f.sizeBytes = 0 then ⟨.error .fileEmpty, 0, 0, 0⟩
  else if f.openable = false then ⟨.error .cannotOpen, 1, 1, 0⟩
  else if f.fps ≤ 0 ∨ 240 < f.fps then ⟨.error .invalidFps, 1, 1, 0⟩
  else if f.frameCount ≤ 0 then ⟨.error .noFrames, 1, 1, 0⟩
  else if f.width ≤ 0 ∨ f.height ≤ 0 then ⟨.error .invalidResolution, 1, 1, 0⟩
  else if MAX_VIDEO_DURATION < computedDuration f.frameCount f.fps then
    ⟨.error .videoTooLong, 1, 1, 0⟩
  else
    ⟨.ok ⟨f.fps, f.frameCount, f.width, f.height,
          computedDuration f.frameCount f.fps,
          (f.sizeBytes : ℚ) / (1024 * 1024)⟩, 1, 1, 0⟩

/-! `_get_output_codec` (lines 170-203). -/

/-- The ordered codec preference list (lines 183-188). -/
def codec_preferences : List (String × String) :=
  [("mp4v", ".mp4"), ("avc1", ".mp4"), ("XVID", ".avi"), ("MJPG", ".avi")]

/-- The `for codec, ext in codec_preferences` loop (lines 190-199).  `avail`
models `cv2.VideoWriter_fourcc(*codec)`: `some fourcc` when the call yields a
usable code, `none` when the candidate is skipped (the `fourcc is not None`
guard fails or the call raises and the `except` branch continues).  On the
first available candidate the loop returns its code and
`extension if extension == ext else ext` (line 195). -/
def getOutputCodecLoop (avail : String → Option ℤ) (extension : String) :
    List (String × String) → Option (ℤ × String)
  | [] => none
  | (codec, ext) :: rest =>
    match avail codec with
    | some fourcc =>
        some (fourcc, if extension = ext then extension else ext)
    | none => getOutputCodecLoop avail extension rest

/-- `_get_output_codec` (lines 170-203): try the preference list; when no
candidate is available, fall back to `cv2.VideoWriter_fourcc(*'mp4v')` with
extension `.mp4` (line 203) instead of raising. -/
def get_output_codec (avail : String → Option ℤ) (extension : String) :
    Option ℤ × String :=
  match getOutputCodecLoop avail extension codec_preferences with
  | some (fourcc, ext) => (some fourcc, ext)
  | none => (avail "mp4v", ".mp4")

/-! `_get_pose_detector` (lines 55-92). -/

/-- The error raised at line 84: every exception that reaches the context
manager's `except` clause is re-raised as
`VideoProcessingError("Pose detector initialization failed: " + str(e))`. -/
inductive PoseError where
  | initFailed (cause : String)
deriving Repr, DecidableEq

/-- Outcome of running the `with self._get_pose_detector() as pose:` block:
the value or error that propagates to the caller, and whether `pose.close()`
ran (the `finally` at lines 86-92, which runs whenever `pose` was created). -/
structure ScopeResult (A : Type) where
  outcome : Except PoseError A
  closed : Bool

/-- The `_get_pose_detector` context manager around a body.  `acquire` models
`mp.solutions.pose.Pose(...)` (line 66): it yields a detector or raises with
a message.  The `yield pose` sits inside the `try`, so an exception raised by
the body is caught by the same `except Exception` (line 82) and wrapped
exactly like an acquisition failure; the `finally` closes the detector
whenever it was created. -/
def get_pose_detector {P A : Type} (acquire : Except String P)
    (body : P → Except String A) : ScopeResult A :=
  match acquire with
  | .error e => ⟨.error (.initFailed e), false⟩
  | .ok pose =>
    match body pose with
    | .ok a => ⟨.ok a, true⟩
    | .error e => ⟨.error (.initFailed e), true⟩

/-! `process_video_with_retry` (lines 450-480). -/

/-- The terminal error raised at line 480:
`VideoProcessingError("All {max_retries} attempts failed. Last error: ...")`,
wrapping the value of `last_error` after the loop. -/
inductive RetryError (E : Type) where
  | allFailed (attempts : ℕ) (last : Option E)

/-- Result of `process_video_with_retry` together with its observable
side effects: the sequence of `time.sleep` durations (line 478) and the
number of `process_video` invocations. -/
structure RetryTrace (E R : Type) where
  result : Except (RetryError E) R
  sleeps : List ℕ
  calls : ℕ

/-- The `for attempt in range(max_retries)` loop (lines 465-478), recursing
over the list of remaining attempt indices while threading `last_error`.
A successful `process_video` call returns immediately; a failed one stores
the error and, when `attempt < max_retries - 1`, sleeps `2 ** attempt`
seconds before the next iteration.  An exhausted index list falls through to
the raise at line 480. -/
def retryLoop {E R : Type} (attempt : ℕ → Except E R) (max_retries : ℕ)
    (last_error : Option E) : List ℕ → RetryTrace E R
  | [] => ⟨.error (.allFailed max_retries last_error), [], 0⟩
  | n :: rest =>
    match attempt n with
    | .ok r => ⟨.ok r, [], 1⟩
    | .error e =>
      let t := retryLoop attempt max_retries (some e) rest
      ⟨t.result, (if n < max_retries - 1 then [2 ^ n] else []) ++ t.sleeps,
       t.calls + 1⟩

/-- `process_video_with_retry` (lines 450-480).  `attempt n` models the
outcome of the `process_video` call on 0-based attempt `n`; note the
`except Exception` at line 470 catches every failure kind alike, including
validation errors. -/
def process_video_with_retry {E R : Type} (attempt : ℕ → Except E R)
    (max_retries : ℕ) : RetryTrace E R :=
  retryLoop attempt max_retries none (List.range max_retries)

/-! Helper definitions used by the theorems below. -/

/-- Whether an `Except` value is an error. -/
def isError {ε α : Type} : Except ε α → Bool
  | .error _ => true
  | .ok _ => false

/-- Bump the failure counter, leaving every other field alone (the effect of
the decode-failure branch, lines 279-282). -/
def addFailed (s : LoopState) : LoopState :=
  { s with failed_frames := s.failed_frames + 1 }

/-- A decodable frame on which the estimator returns no landmarks. -/
def frameOkNoPose : Frame := ⟨true, .noPose, false⟩

/-- A read whose frame is `None`/empty. -/
def frameBad : Frame := ⟨false, .noPose, false⟩

/-- A decodable frame on which the estimator raises. -/
def frameEstThrows : Frame := ⟨true, .throws, false⟩

/-! Frame-loop lemmas. -/

theorem processFrame_frame_count (fps : ℚ) (s : LoopState) (f : Frame) :
    (processFrame fps s f).frame_count =
      s.frame_count + (if f.decodeOk then 1 else 0) := by
  cases hf : f.decodeOk <;> cases hest : f.est <;>
    simp [processFrame, hf, hest]

theorem processFrame_written_length (fps : ℚ) (s : LoopState) (f : Frame) :
    (processFrame fps s f).written.length =
      s.written.length + (if f.decodeOk then 1 else 0) := by
  cases hf : f.decodeOk <;> cases hest : f.est <;>
    simp [processFrame, hf, hest]

theorem foldl_frame_count (fps : ℚ) (l : List Frame) (s : LoopState) :
    (l.foldl (processFrame fps) s).frame_count =
      s.frame_count + l.countP (fun f => f.decodeOk) := by
  induction l generalizing s with
  | nil => simp
  | cons f l ih =>
      simp only [List.foldl_cons, List.countP_cons, ih,
        processFrame_frame_count]
      cases hf : f.decodeOk <;> simp [hf] <;> omega

theorem foldl_written_length (fps : ℚ) (l : List Frame) (s : LoopState) :
    (l.foldl (processFrame fps) s).written.length =
      s.written.length + l.countP (fun f => f.decodeOk) := by
  induction l generalizing s with
  | nil => simp
  | cons f l ih =>
      simp only [List.foldl_cons, List.countP_cons, ih,
        processFrame_written_length]
      cases hf : f.decodeOk <;> simp [hf] <;> omega

theorem processFrame_addFailed (fps : ℚ) (s : LoopState) (f : Frame) :
    processFrame fps (addFailed s) f = addFailed (processFrame fps s f) := by
  cases hf : f.decodeOk <;> cases hest : f.est <;>
    cases hr : f.renderFails <;>
      simp [processFrame, addFailed, hf, hest, hr]

theorem foldl_addFailed (fps : ℚ) (l : List Frame) (s : LoopState) :
    l.foldl (processFrame fps) (addFailed s) =
      addFailed (l.foldl (processFrame fps) s) := by
  induction l generalizing s with
  | nil => rfl
  | cons f l ih => simp [processFrame_addFailed, ih]

/-- C1.  Frame-count parity: when every read of a video decodes (no
`None`/empty frames) and the metadata frame count matches the number of
readable frames, `process_video` reports `processed_frames = total_frames`
and writes exactly one output frame per input frame, with no constraint on
the per-frame estimation outcomes (so parity holds even when estimation
fails on every frame). -/
theorem frame_count_parity (fps : ℚ) (total_frames : ℕ) (frames : List Frame)
    (hvalid : ∀ f ∈ frames, f.decodeOk = true)
    (hlen : frames.length = total_frames) :
    (process_video fps total_frames frames).processed_frames =
      (process_video fps total_frames frames).total_frames ∧
    (processFrames fps frames).written.length = total_frames := by
  have hcount : frames.countP (fun f => f.decodeOk) = frames.length :=
    List.countP_eq_length.mpr (by intro f hf; simpa using hvalid f hf)
  constructor
  · show (processFrames fps frames).frame_count = total_frames
    rw [processFrames, foldl_frame_count, hcount, hlen]
    simp [initState]
  · rw [processFrames, foldl_written_length, hcount, hlen]
    simp [initState]

/-- Witness for C1 at a concrete three-frame video on which estimation
raises on every frame. -/
theorem frame_count_parity_witness :
    (process_video 30 3 [frameEstThrows, frameEstThrows, frameEstThrows]).processed_frames =
      (process_video 30 3 [frameEstThrows, frameEstThrows, frameEstThrows]).total_frames ∧
    (processFrames 30 [frameEstThrows, frameEstThrows, frameEstThrows]).written.length = 3 :=
  frame_count_parity 30 3 [frameEstThrows, frameEstThrows, frameEstThrows]
    (by decide) (by decide)

/-- C2.  A mid-video decode failure is isolated: inserting a `None`/empty
read anywhere in the stream leaves the entire run unchanged except for one
extra counted failure — nothing is written for that read, `frame_count`
does not advance for it, and all subsequent frames are processed exactly as
they would have been without it (the job is never aborted). -/
theorem decode_failure_isolated (fps : ℚ) (pre post : List Frame) (f : Frame)
    (hf : f.decodeOk = false) :
    processFrames fps (pre ++ f :: post) =
      addFailed (processFrames fps (pre ++ post)) ∧
    (processFrames fps (pre ++ f :: post)).written =
      (processFrames fps (pre ++ post)).written ∧
    (processFrames fps (pre ++ f :: post)).failed_frames =
      (processFrames fps (pre ++ post)).failed_frames + 1 := by
  have hmain : processFrames fps (pre ++ f :: post) =
      addFailed (processFrames fps (pre ++ post)) := by
    rw [processFrames, processFrames, List.foldl_append, List.foldl_append,
      List.foldl_cons]
    have hstep : processFrame fps (List.foldl (processFrame fps) initState pre) f =
        addFailed (List.foldl (processFrame fps) initState pre) := by
      simp [processFrame, hf, addFailed]
    rw [hstep, foldl_addFailed]
  exact ⟨hmain, by rw [hmain]; rfl, by rw [hmain]; rfl⟩

/-- Witness for C2 at a concrete stream with one bad read between two good
frames. -/
theorem decode_failure_isolated_witness :
    processFrames 30 ([frameOkNoPose] ++ frameBad :: [frameOkNoPose]) =
      addFailed (processFrames 30 ([frameOkNoPose] ++ [frameOkNoPose])) ∧
    (processFrames 30 ([frameOkNoPose] ++ frameBad :: [frameOkNoPose])).written =
      (processFrames 30 ([frameOkNoPose] ++ [frameOkNoPose])).written ∧
    (processFrames 30 ([frameOkNoPose] ++ frameBad :: [frameOkNoPose])).failed_frames =
      (processFrames 30 ([frameOkNoPose] ++ [frameOkNoPose])).failed_frames + 1 :=
  decode_failure_isolated 30 [frameOkNoPose] [frameOkNoPose] frameBad rfl

/-- C6.  When the estimator raises on a decodable frame, the loop counts one
failure, writes the original unannotated frame, advances `frame_count`, and
leaves the detection counter and the keypoints data untouched. -/
theorem estimation_failure_passthrough (fps : ℚ) (s : LoopState) (f : Frame)
    (h1 : f.decodeOk = true) (h2 : f.est = .throws) :
    processFrame fps s f =
      { s with failed_frames := s.failed_frames + 1,
               written := s.written ++ [.original],
               frame_count := s.frame_count + 1 } ∧
    (processFrame fps s f).keypoints_data = s.keypoints_data ∧
    (processFrame fps s f).detected_frames = s.detected_frames := by
  refine ⟨?_, ?_, ?_⟩ <;> simp [processFrame, h1, h2]

/-- Witness for C6 at the initial state and a concrete estimation-raising
frame. -/
theorem estimation_failure_passthrough_witness :
    processFrame 30 initState frameEstThrows =
      { initState with failed_frames := initState.failed_frames + 1,
                       written := initState.written ++ [.original],
                       frame_count := initState.frame_count + 1 } ∧
    (processFrame 30 initState frameEstThrows).keypoints_data =
      initState.keypoints_data ∧
    (processFrame 30 initState frameEstThrows).detected_frames =
      initState.detected_frames :=
  estimation_failure_passthrough 30 initState frameEstThrows rfl rfl

/-- A concrete detected landmark. -/
def lmFull : Landmark := ⟨0, 0, 0, 1⟩

/-- A decodable frame with a detected skeleton whose overlay rendering
raises. -/
def frameDetectedRenderFail : Frame := ⟨true, .detected [lmFull], true⟩

/-- A decodable frame with a detected skeleton and successful rendering. -/
def frameDetectedOk : Frame := ⟨true, .detected [lmFull], false⟩

/-- C5 counterexample.  On a frame with a detected skeleton whose overlay
rendering raises, the code records the detection and still writes the frame,
but appends no keypoints entry — the extraction at lines 320-334 sits inside
the same `try` as `draw_landmarks`, so a rendering failure also skips the
append, contradicting the claim that every detected frame contributes
exactly one `FrameKeypoints` entry. -/
theorem render_failure_drops_keypoints :
    (processFrames 30 [frameDetectedRenderFail]).detected_frames = 1 ∧
    (processFrames 30 [frameDetectedRenderFail]).keypoints_data = [] ∧
    (processFrames 30 [frameDetectedRenderFail]).written = [.status false] := by
  refine ⟨rfl, rfl, rfl⟩

/-- C5 (amended).  On every frame with a detected skeleton the loop counts
one detection, writes exactly one frame (with the skeleton overlay exactly
when rendering succeeded), and advances `frame_count`; when the
rendering/extraction block does not raise it appends exactly one keypoints
entry carrying the current frame index, timestamp `frame_count / fps`, and
the returned landmark list; when that block raises, the failure is logged
and no keypoints entry is appended, but the frame is still written. -/
theorem detected_frame_behavior (fps : ℚ) (s : LoopState) (f : Frame)
    (lms : List Landmark)
    (h1 : f.decodeOk = true) (h2 : f.est = .detected lms) :
    (processFrame fps s f).detected_frames = s.detected_frames + 1 ∧
    (processFrame fps s f).written = s.written ++ [.status (!f.renderFails)] ∧
    (processFrame fps s f).frame_count = s.frame_count + 1 ∧
    (processFrame fps s f).failed_frames = s.failed_frames ∧
    (f.renderFails = false →
      (processFrame fps s f).keypoints_data =
        s.keypoints_data ++ [⟨s.frame_count, lms, (s.frame_count : ℚ) / fps⟩]) ∧
    (f.renderFails = true →
      (processFrame fps s f).keypoints_data = s.keypoints_data) := by
  cases hr : f.renderFails <;> simp [processFrame, h1, h2, hr]

/-- Witness for C5 at the initial state and a concrete detected frame with
successful rendering. -/
theorem detected_frame_behavior_witness :
    (processFrame 30 initState frameDetectedOk).detected_frames =
      initState.detected_frames + 1 ∧
    (processFrame 30 initState frameDetectedOk).written =
      initState.written ++ [.status (!frameDetectedOk.renderFails)] ∧
    (processFrame 30 initState frameDetectedOk).frame_count =
      initState.frame_count + 1 ∧
    (processFrame 30 initState frameDetectedOk).failed_frames =
      initState.failed_frames ∧
    (frameDetectedOk.renderFails = false →
      (processFrame 30 initState frameDetectedOk).keypoints_data =
        initState.keypoints_data ++
          [⟨initState.frame_count, [lmFull], (initState.frame_count : ℚ) / 30⟩]) ∧
    (frameDetectedOk.renderFails = true →
      (processFrame 30 initState frameDetectedOk).keypoints_data =
        initState.keypoints_data) :=
  detected_frame_behavior 30 initState frameDetectedOk [lmFull] rfl rfl

/-! Statistics lemmas. -/

/-- Modelled from the spec's words for comparison with the code: the exact
(unrounded) mean of every landmark's visibility across every recorded frame,
absent when there are no landmarks. -/
def specMeanVisibility (kp : List KeypointsEntry) : Option ℚ :=
  let vs := (kp.map (fun fd => fd.landmarks.map (fun lm => lm.visibility))).flatten
  if vs.length = 0 then none else some (vs.sum / (vs.length : ℚ))

theorem visibility_foldl_inner (lms : List Landmark) (t : ℚ) (c : ℕ) :
    lms.foldl (fun (tc : ℚ × ℕ) lm => (tc.1 + lm.visibility, tc.2 + 1)) (t, c) =
      (t + (lms.map (fun lm => lm.visibility)).sum, c + lms.length) := by
  induction lms generalizing t c with
  | nil => simp
  | cons lm lms ih => simp [ih, add_assoc]; omega

theorem visibility_foldl_outer (kp : List KeypointsEntry) (t : ℚ) (c : ℕ) :
    kp.foldl
        (fun (tc : ℚ × ℕ) fd =>
          fd.landmarks.foldl
            (fun (tc : ℚ × ℕ) lm => (tc.1 + lm.visibility, tc.2 + 1)) tc)
        (t, c) =
      (t + (kp.map (fun fd => (fd.landmarks.map (fun lm => lm.visibility)).sum)).sum,
       c + (kp.map (fun fd => fd.landmarks.length)).sum) := by
  induction kp generalizing t c with
  | nil => simp
  | cons fd kp ih => simp [visibility_foldl_inner, ih, add_assoc]

theorem calculate_average_visibility_eq (kp : List KeypointsEntry) :
    calculate_average_visibility kp = (specMeanVisibility kp).map round3 := by
  rw [calculate_average_visibility, specMeanVisibility]
  rcases hkp : kp with _ | ⟨fd, kp'⟩
  · simp
  · rw [← hkp]
    have hne : kp.isEmpty = false := by rw [hkp]; rfl
    simp only [hne, Bool.false_eq_true, if_false, visibility_foldl_outer,
      List.sum_flatten, List.length_flatten, List.map_map, Function.comp_def,
      List.length_map, zero_add, Nat.zero_add]
    rcases Nat.eq_zero_or_pos (kp.map (fun fd => fd.landmarks.length)).sum
      with hz | hp
    · simp [hz]
    · simp [hp, hp.ne']

theorem foldl_keypoints_of_no_detection (fps : ℚ) (l : List Frame)
    (s : LoopState)
    (h : ∀ f ∈ l, ∀ lms, f.est ≠ .detected lms) :
    (l.foldl (processFrame fps) s).keypoints_data = s.keypoints_data := by
  induction l generalizing s with
  | nil => rfl
  | cons f l ih =>
      have hstep : (processFrame fps s f).keypoints_data = s.keypoints_data := by
        cases hf : f.decodeOk <;> cases hest : f.est <;>
          simp [processFrame, hf, hest]
        exact absurd hest (h f (by simp) _)
      rw [List.foldl_cons, ih _ (fun g hg => h g (by simp [hg])), hstep]

/-- A one-frame stream whose detected skeleton has three landmarks with
visibilities 0, 0, 1, so the exact mean visibility is 1/3. -/
def framesThirdMean : List Frame :=
  [⟨true, .detected [⟨0, 0, 0, 0⟩, ⟨0, 0, 0, 0⟩, ⟨0, 0, 0, 1⟩], false⟩]

theorem round3_one_third : round3 (1 / 3) = 333 / 1000 := by
  have hq : (1 : ℚ) / 3 * 1000 = 1000 / 3 := by norm_num
  have hfl : ⌊(1000 : ℚ) / 3⌋ = 333 := by
    apply Int.floor_eq_iff.mpr
    constructor <;> norm_num
  rw [round3, hq, roundHalfEven, hfl]
  rw [if_pos (by norm_num)]
  norm_num

/-- Modelled from the spec's words for comparison with the code: the exact
mean visibility over every landmark of every detected frame of the stream,
whether or not the overlay rendering of that frame succeeded. -/
def specMeanVisibilityAllDetected (frames : List Frame) : Option ℚ :=
  let vs := (frames.map (fun f =>
    match f.est with
    | .detected lms =>
        if f.decodeOk then lms.map (fun lm => lm.visibility) else []
    | _ => [])).flatten
  if vs.length = 0 then none else some (vs.sum / (vs.length : ℚ))

/-- A two-frame stream: a detected frame with three fully visible landmarks
whose rendering succeeds, then a detected frame with one zero-visibility
landmark whose rendering fails. -/
def framesRenderMix : List Frame :=
  [⟨true, .detected [⟨0, 0, 0, 1⟩, ⟨0, 0, 0, 1⟩, ⟨0, 0, 0, 1⟩], false⟩,
   ⟨true, .detected [⟨0, 0, 0, 0⟩], true⟩]

theorem round3_one : round3 1 = 1 := by
  have hfl : ⌊(1 : ℚ) * 1000⌋ = 1000 := by
    apply Int.floor_eq_iff.mpr
    constructor <;> norm_num
  rw [round3, roundHalfEven, hfl]
  rw [if_pos (by norm_num)]
  norm_num

/-- C8 counterexample.  The reported average visibility is neither the
exact mean nor taken over every detected frame.  On a detected frame with
landmark visibilities 0, 0, 1 the exact mean is 1/3 but the pipeline
reports the rounded 0.333 (`round(total/count, 3)`, line 444).  And on a
stream with a second detected frame whose overlay rendering raises, that
frame's landmarks are excluded (the extraction at lines 320-334 shares the
rendering `try`), so the pipeline reports 1 where the mean over every
detected frame's landmarks is 3/4. -/
theorem average_visibility_not_exact_mean :
    (process_video 30 1 framesThirdMean).average_visibility =
      some (333 / 1000) ∧
    specMeanVisibility (processFrames 30 framesThirdMean).keypoints_data =
      some (1 / 3) ∧
    (some ((333 : ℚ) / 1000) : Option ℚ) ≠ some ((1 : ℚ) / 3) ∧
    (process_video 30 2 framesRenderMix).average_visibility = some 1 ∧
    specMeanVisibilityAllDetected framesRenderMix = some (3 / 4) ∧
    (some (1 : ℚ) : Option ℚ) ≠ some ((3 : ℚ) / 4) := by
  have hkp : (processFrames 30 framesThirdMean).keypoints_data =
      [⟨0, [⟨0, 0, 0, 0⟩, ⟨0, 0, 0, 0⟩, ⟨0, 0, 0, 1⟩], 0⟩] := by
    simp [processFrames, framesThirdMean, processFrame, initState]
  have hkp2 : (processFrames 30 framesRenderMix).keypoints_data =
      [⟨0, [⟨0, 0, 0, 1⟩, ⟨0, 0, 0, 1⟩, ⟨0, 0, 0, 1⟩], 0⟩] := by
    simp [processFrames, framesRenderMix, processFrame, initState]
  refine ⟨?_, ?_, ?_, ?_, ?_, ?_⟩
  · show calculate_average_visibility
        (processFrames 30 framesThirdMean).keypoints_data = some (333 / 1000)
    rw [hkp]
    simp only [calculate_average_visibility]
    norm_num [round3_one_third]
  · rw [hkp]
    simp only [specMeanVisibility]
    norm_num
  · rw [ne_eq, Option.some_inj]
    norm_num
  · show calculate_average_visibility
        (processFrames 30 framesRenderMix).keypoints_data = some 1
    rw [hkp2]
    simp only [calculate_average_visibility]
    norm_num [round3_one]
  · simp only [specMeanVisibilityAllDetected, framesRenderMix]
    norm_num
  · rw [ne_eq, Option.some_inj]
    norm_num

/-- C8 (amended).  Statistics are total and zero-guarded: the reported
detection and failure rates equal `detected/total*100` and
`failed/total*100` and are 0 when `total_frames = 0`; the reported average
visibility is the mean visibility over every landmark of every recorded
keypoints entry, rounded to three decimal places, and is absent when the
run recorded no keypoints — in particular whenever no frame was detected. -/
theorem statistics_total_and_guarded (fps : ℚ) (total_frames : ℕ)
    (frames : List Frame) :
    (process_video fps total_frames frames).detection_rate =
      ((process_video fps total_frames frames).detected_frames : ℚ) /
        (total_frames : ℚ) * 100 ∧
    (process_video fps total_frames frames).failed_rate =
      ((process_video fps total_frames frames).failed_frames : ℚ) /
        (total_frames : ℚ) * 100 ∧
    (total_frames = 0 →
      (process_video fps total_frames frames).detection_rate = 0 ∧
      (process_video fps total_frames frames).failed_rate = 0) ∧
    (process_video fps total_frames frames).average_visibility =
      (specMeanVisibility (processFrames fps frames).keypoints_data).map round3 ∧
    ((∀ f ∈ frames, ∀ lms, f.est ≠ .detected lms) →
      (process_video fps total_frames frames).average_visibility = none) := by
  refine ⟨?_, ?_, ?_, ?_, ?_⟩
  · rcases Nat.eq_zero_or_pos total_frames with hz | hp
    · simp [process_video, buildResult, hz]
    · simp [process_video, buildResult, hp]
  · rcases Nat.eq_zero_or_pos total_frames with hz | hp
    · simp [process_video, buildResult, hz]
    · simp [process_video, buildResult, hp]
  · intro hz
    simp [process_video, buildResult, hz]
  · exact calculate_average_visibility_eq _
  · intro h
    have hkp : (processFrames fps frames).keypoints_data = [] := by
      rw [processFrames, foldl_keypoints_of_no_detection fps frames initState h]
      rfl
    show calculate_average_visibility (processFrames fps frames).keypoints_data = none
    rw [hkp]
    rfl

/-- Witness for C8 on a one-frame video with no detection and on the
degenerate zero-frame total. -/
theorem statistics_total_and_guarded_witness :
    (process_video 30 0 [frameOkNoPose]).detection_rate =
      ((process_video 30 0 [frameOkNoPose]).detected_frames : ℚ) / (0 : ℚ) * 100 ∧
    (process_video 30 0 [frameOkNoPose]).failed_rate =
      ((process_video 30 0 [frameOkNoPose]).failed_frames : ℚ) / (0 : ℚ) * 100 ∧
    ((process_video 30 0 [frameOkNoPose]).detection_rate = 0 ∧
      (process_video 30 0 [frameOkNoPose]).failed_rate = 0) ∧
    (process_video 30 0 [frameOkNoPose]).average_visibility =
      (specMeanVisibility (processFrames 30 [frameOkNoPose]).keypoints_data).map
        round3 ∧
    (process_video 30 0 [frameOkNoPose]).average_visibility = none := by
  have h := statistics_total_and_guarded 30 0 [frameOkNoPose]
  exact ⟨h.1, h.2.1, h.2.2.1 rfl, h.2.2.2.1,
    h.2.2.2.2 (by intro f hf lms; simp [frameOkNoPose] at hf; simp [hf])⟩

/-! Validator theorems. -/

/-- The disjunction of rejection conditions listed for `validate(path)`:
file missing, empty file, oversized file, unopenable source, out-of-range
frame rate, nonpositive frame count, nonpositive dimensions, or computed
duration above the cap. -/
def invalidInputCondition (f : FileInfo) : Prop :=
  f.fileExists = false ∨ f.sizeBytes = 0 ∨
  MAX_FILE_SIZE_MB < (f.sizeBytes : ℚ) / (1024 * 1024) ∨
  f.openable = false ∨ f.fps ≤ 0 ∨ 240 < f.fps ∨ f.frameCount ≤ 0 ∨
  f.width ≤ 0 ∨ f.height ≤ 0 ∨
  MAX_VIDEO_DURATION < computedDuration f.frameCount f.fps

/-- C7.  `validate_video_file` errors exactly on the listed conditions, it
never reads a frame, every capture it opens is released before it returns
or raises, and on a zero-byte file it raises before the capture is even
opened (hence before any frame could be read). -/
theorem validate_errors_iff (f : FileInfo) :
    (isError (validate_video_file f).result = true ↔ invalidInputCondition f) ∧
    (validate_video_file f).framesRead = 0 ∧
    (validate_video_file f).releases = (validate_video_file f).opens ∧
    (f.sizeBytes = 0 →
      isError (validate_video_file f).result = true ∧
      (validate_video_file f).opens = 0) := by
  unfold validate_video_file invalidInputCondition
  split_ifs with h1 h2 h3 h4 h5 h6 h7 h8 <;> simp_all [isError] <;> tauto

/-- Witness for C7 at a concrete zero-byte file. -/
theorem validate_errors_iff_witness :
    isError (validate_video_file ⟨true, 0, true, 30, 10, 640, 480⟩).result = true ∧
    (validate_video_file ⟨true, 0, true, 30, 10, 640, 480⟩).opens = 0 ∧
    (validate_video_file ⟨true, 0, true, 30, 10, 640, 480⟩).framesRead = 0 :=
  ⟨((validate_errors_iff ⟨true, 0, true, 30, 10, 640, 480⟩).2.2.2 rfl).1,
   ((validate_errors_iff ⟨true, 0, true, 30, 10, 640, 480⟩).2.2.2 rfl).2,
   (validate_errors_iff ⟨true, 0, true, 30, 10, 640, 480⟩).2.1⟩

/-! Codec negotiation theorems. -/

theorem getOutputCodecLoop_eq_none_iff (avail : String → Option ℤ)
    (ext : String) (l : List (String × String)) :
    getOutputCodecLoop avail ext l = none ↔ ∀ p ∈ l, avail p.1 = none := by
  induction l with
  | nil => simp [getOutputCodecLoop]
  | cons p rest ih =>
      rcases p with ⟨codec, e⟩
      rw [getOutputCodecLoop]
      cases havail : avail codec <;> simp [havail, ih]

theorem getOutputCodecLoop_first (avail : String → Option ℤ) (ext : String)
    (l1 : List (String × String)) (c e : String)
    (l2 : List (String × String)) (v : ℤ)
    (h1 : ∀ q ∈ l1, avail q.1 = none) (h2 : avail c = some v) :
    getOutputCodecLoop avail ext (l1 ++ (c, e) :: l2) =
      some (v, if ext = e then ext else e) := by
  induction l1 with
  | nil => simp [getOutputCodecLoop, h2]
  | cons q rest ih =>
      rcases q with ⟨qc, qe⟩
      rw [List.cons_append, getOutputCodecLoop,
        h1 (qc, qe) (by simp)]
      exact ih (fun q hq => h1 q (by simp [hq]))

/-- C9.  Codec negotiation always returns a pair and never raises: the first
candidate of the preference list whose encoder call yields a usable code
wins, the returned extension is that candidate's extension (which
coincides with the requested one exactly when they already match, so a
matching request is preserved and a non-matching request is overridden),
and when every candidate is unavailable the hard-coded `mp4v`/`.mp4`
fallback of line 203 is returned instead of an error. -/
theorem codec_negotiation (avail : String → Option ℤ) (ext : String) :
    ((∀ p ∈ codec_preferences, avail p.1 = none) →
      get_output_codec avail ext = (avail "mp4v", ".mp4")) ∧
    (∀ l1 c e l2 v, codec_preferences = l1 ++ (c, e) :: l2 →
      (∀ q ∈ l1, avail q.1 = none) → avail c = some v →
      get_output_codec avail ext = (some v, if ext = e then ext else e) ∧
      (ext = e → (get_output_codec avail ext).2 = ext)) := by
  constructor
  · intro h
    rw [get_output_codec,
      (getOutputCodecLoop_eq_none_iff avail ext codec_preferences).mpr h]
  · intro l1 c e l2 v hsplit hnone hv
    have hloop : getOutputCodecLoop avail ext codec_preferences =
        some (v, if ext = e then ext else e) := by
      rw [hsplit]
      exact getOutputCodecLoop_first avail ext l1 c e l2 v hnone hv
    constructor
    · rw [get_output_codec, hloop]
    · intro he
      rw [get_output_codec, hloop]
      simp [he]

/-- Availability environment in which only the `XVID` encoder works. -/
def availXVIDOnly : String → Option ℤ :=
  fun c => if c = "XVID" then some 7 else none

/-- Witness for C9: with only `XVID` available and `.avi` requested, the
negotiation returns the `XVID` code and preserves the requested
extension. -/
theorem codec_negotiation_witness :
    get_output_codec availXVIDOnly ".avi" = (some 7, ".avi") ∧
    (get_output_codec availXVIDOnly ".avi").2 = ".avi" := by
  have h := (codec_negotiation availXVIDOnly ".avi").2
    [("mp4v", ".mp4"), ("avc1", ".mp4")] "XVID" ".avi" [("MJPG", ".avi")] 7
    rfl (by decide) rfl
  refine ⟨?_, h.2 rfl⟩
  have h1 := h.1
  simpa using h1

/-! Pose-detector scope theorems. -/

/-- C10.  The pose-detector context manager closes the detector on every
exit path on which it was created (body success or body failure), it wraps
an acquisition failure as the initialization error, and it catches an
exception propagating out of its body and re-raises it as the same
initialization error — so a body failure is indistinguishable from an
acquisition failure with the same cause. -/
theorem pose_scope_wraps_and_closes {P A : Type} (acquire : Except String P)
    (body : P → Except String A) :
    (∀ p a, acquire = .ok p → body p = .ok a →
      (get_pose_detector acquire body).outcome = .ok a ∧
      (get_pose_detector acquire body).closed = true) ∧
    (∀ p e, acquire = .ok p → body p = .error e →
      (get_pose_detector acquire body).outcome = .error (.initFailed e) ∧
      (get_pose_detector acquire body).closed = true) ∧
    (∀ e, acquire = .error e →
      (get_pose_detector acquire body).outcome = .error (.initFailed e) ∧
      (get_pose_detector acquire body).closed = false) ∧
    (∀ p e (body₂ : P → Except String A), acquire = .ok p → body p = .error e →
      (get_pose_detector acquire body).outcome =
        (get_pose_detector (.error e : Except String P) body₂).outcome) := by
  refine ⟨?_, ?_, ?_, ?_⟩
  · intro p a hacq hbody
    rw [hacq]
    simp [get_pose_detector, hbody]
  · intro p e hacq hbody
    rw [hacq]
    simp [get_pose_detector, hbody]
  · intro e hacq
    rw [hacq]
    simp [get_pose_detector]
  · intro p e body₂ hacq hbody
    rw [hacq]
    simp [get_pose_detector, hbody]

/-- Witness for C10: a body that raises after successful acquisition yields
the wrapped initialization error with the detector closed, identical in
outcome to an acquisition failure with the same cause. -/
theorem pose_scope_wraps_and_closes_witness :
    (get_pose_detector (.ok ()) (fun _ => (.error "boom" : Except String ℕ))).outcome =
      .error (.initFailed "boom") ∧
    (get_pose_detector (.ok ()) (fun _ => (.error "boom" : Except String ℕ))).closed =
      true ∧
    (get_pose_detector (.ok ()) (fun _ => (.error "boom" : Except String ℕ))).outcome =
      (get_pose_detector (.error "boom" : Except String Unit)
        (fun _ => (.error "other" : Except String ℕ))).outcome := by
  have h := pose_scope_wraps_and_closes (.ok ())
    (fun _ => (.error "boom" : Except String ℕ))
  exact ⟨(h.2.1 () "boom" rfl rfl).1, (h.2.1 () "boom" rfl rfl).2,
    h.2.2.2 () "boom" (fun _ => (.error "other" : Except String ℕ)) rfl rfl⟩

/-! Retry-loop lemmas. -/

/-- The value held by `last_error` after a run of loop iterations over the
given attempt indices (line 471 stores the error of each failed attempt). -/
def threadLast {E R : Type} (attempt : ℕ → Except E R) :
    Option E → List ℕ → Option E
  | last, [] => last
  | last, n :: rest =>
      threadLast attempt
        (match attempt n with
          | .error e => some e
          | .ok _ => last) rest

theorem threadLast_append {E R : Type} (attempt : ℕ → Except E R)
    (last : Option E) (l1 l2 : List ℕ) :
    threadLast attempt last (l1 ++ l2) =
      threadLast attempt (threadLast attempt last l1) l2 := by
  induction l1 generalizing last with
  | nil => rfl
  | cons n l1 ih => simp [threadLast, ih]

theorem retryLoop_all_fail_append {E R : Type} (attempt : ℕ → Except E R)
    (m : ℕ) (l1 l2 : List ℕ) (last : Option E)
    (h : ∀ j ∈ l1, isError (attempt j) = true) :
    (retryLoop attempt m last (l1 ++ l2)).result =
      (retryLoop attempt m (threadLast attempt last l1) l2).result ∧
    (retryLoop attempt m last (l1 ++ l2)).sleeps =
      (l1.filter (fun n => n < m - 1)).map (fun n => 2 ^ n) ++
        (retryLoop attempt m (threadLast attempt last l1) l2).sleeps ∧
    (retryLoop attempt m last (l1 ++ l2)).calls =
      l1.length + (retryLoop attempt m (threadLast attempt last l1) l2).calls := by
  induction l1 generalizing last with
  | nil => simp [threadLast]
  | cons n l1 ih =>
      have hn := h n (by simp)
      cases hatt : attempt n with
      | ok r => rw [hatt] at hn; simp [isError] at hn
      | error e =>
          have hthread : threadLast attempt last (n :: l1) =
              threadLast attempt (some e) l1 := by
            simp [threadLast, hatt]
          have hrest := ih (some e) (fun j hj => h j (by simp [hj]))
          rw [List.cons_append]
          rw [hthread]
          refine ⟨?_, ?_, ?_⟩
          · simp only [retryLoop, hatt]
            exact hrest.1
          · simp only [retryLoop, hatt, List.filter_cons]
            by_cases hcond : n < m - 1 <;>
              simp [hcond, hrest.2.1]
          · simp only [retryLoop, hatt]
            simp [hrest.2.2]
            omega

theorem retryLoop_calls_le {E R : Type} (attempt : ℕ → Except E R)
    (m : ℕ) (last : Option E) (l : List ℕ) :
    (retryLoop attempt m last l).calls ≤ l.length := by
  induction l generalizing last with
  | nil => simp [retryLoop]
  | cons n l ih =>
      cases hatt : attempt n with
      | ok r => simp [retryLoop, hatt]
      | error e =>
          simp only [retryLoop, hatt, List.length_cons]
          have := ih (some e)
          omega

theorem retryLoop_sleeps_sublist {E R : Type} (attempt : ℕ → Except E R)
    (m : ℕ) (last : Option E) (l : List ℕ) :
    ((retryLoop attempt m last l).sleeps).Sublist
      ((l.filter (fun n => n < m - 1)).map (fun n => 2 ^ n)) := by
  induction l generalizing last with
  | nil => simp [retryLoop]
  | cons n l ih =>
      cases hatt : attempt n with
      | ok r => simp [retryLoop, hatt]
      | error e =>
          simp only [retryLoop, hatt, List.filter_cons]
          by_cases hcond : n < m - 1
          · simpa [hcond] using (ih (some e)).cons₂ (2 ^ n)
          · simpa [hcond] using ih (some e)

theorem filter_lt_range_self (k a : ℕ) (hka : k ≤ a) :
    (List.range k).filter (fun n => n < a) = List.range k :=
  List.filter_eq_self.mpr (by intro n hn; simp at hn ⊢; omega)

theorem filter_lt_range_pred (m : ℕ) (hm : 1 ≤ m) :
    (List.range m).filter (fun n => n < m - 1) = List.range (m - 1) := by
  obtain ⟨m', rfl⟩ : ∃ m', m = m' + 1 := ⟨m - 1, by omega⟩
  simp only [Nat.add_sub_cancel]
  rw [List.range_succ, List.filter_append,
    filter_lt_range_self m' m' le_rfl]
  simp

theorem threadLast_all_fail {E R : Type} (attempt : ℕ → Except E R)
    (es : ℕ → E) (m : ℕ) (hm : 1 ≤ m)
    (h : ∀ j, j < m → attempt j = .error (es j)) (last : Option E) :
    threadLast attempt last (List.range m) = some (es (m - 1)) := by
  obtain ⟨m', rfl⟩ : ∃ m', m = m' + 1 := ⟨m - 1, by omega⟩
  rw [List.range_succ, threadLast_append]
  simp [threadLast, h m' (by omega)]

theorem range_decomp (k m : ℕ) (hk : k < m) :
    List.range m = List.range k ++ k :: List.range' (k + 1) (m - k - 1) := by
  rw [List.range_eq_range', List.range_eq_range']
  have h1 := List.range'_append 0 k (m - k) 1
  simp only [Nat.zero_add, Nat.one_mul] at h1
  have h2 : (m - k) + k = m := by omega
  rw [h2] at h1
  have h3 : m - k = (m - k - 1) + 1 := by omega
  have h4 : List.range' k (m - k) = k :: List.range' (k + 1) (m - k - 1) := by
    conv_lhs => rw [h3]
    rw [List.range'_succ]
  rw [← h1, h4]

theorem retry_all_fail_general {E R : Type} (attempt : ℕ → Except E R)
    (es : ℕ → E) (m : ℕ) (hm : 1 ≤ m)
    (h : ∀ j, j < m → attempt j = .error (es j)) :
    (process_video_with_retry attempt m).result =
      .error (.allFailed m (some (es (m - 1)))) ∧
    (process_video_with_retry attempt m).sleeps =
      (List.range (m - 1)).map (fun n => 2 ^ n) ∧
    (process_video_with_retry attempt m).calls = m := by
  have hall : ∀ j ∈ List.range m, isError (attempt j) = true := by
    intro j hj
    rw [List.mem_range] at hj
    rw [h j hj]
    rfl
  have happ := retryLoop_all_fail_append attempt m (List.range m) [] none hall
  rw [List.append_nil] at happ
  rw [process_video_with_retry]
  refine ⟨?_, ?_, ?_⟩
  · rw [happ.1, retryLoop, threadLast_all_fail attempt es m hm h]
  · rw [happ.2.1, retryLoop, filter_lt_range_pred m hm]
    simp
  · rw [happ.2.2, retryLoop]
    simp

theorem retry_first_success_general {E R : Type} (attempt : ℕ → Except E R)
    (m k : ℕ) (r : R) (hk : k < m)
    (hfail : ∀ j, j < k → isError (attempt j) = true)
    (hok : attempt k = .ok r) :
    (process_video_with_retry attempt m).result = .ok r ∧
    (process_video_with_retry attempt m).sleeps =
      (List.range k).map (fun n => 2 ^ n) ∧
    (process_video_with_retry attempt m).calls = k + 1 := by
  have hall : ∀ j ∈ List.range k, isError (attempt j) = true := by
    intro j hj
    rw [List.mem_range] at hj
    exact hfail j hj
  rw [process_video_with_retry, range_decomp k m hk]
  have happ := retryLoop_all_fail_append attempt m (List.range k)
    (k :: List.range' (k + 1) (m - k - 1)) none hall
  have hhead : retryLoop attempt m (threadLast attempt none (List.range k))
      (k :: List.range' (k + 1) (m - k - 1)) = ⟨.ok r, [], 1⟩ := by
    simp [retryLoop, hok]
  refine ⟨?_, ?_, ?_⟩
  · rw [happ.1, hhead]
  · rw [happ.2.1, hhead, filter_lt_range_self k (m - 1) (by omega)]
    simp
  · rw [happ.2.2, hhead]
    simp

/-- C4.  The retry orchestrator follows the attempt state machine: it makes
at most `max_retries` calls; the backoff durations it sleeps are strictly
increasing; when the first `k` attempts fail and attempt `k` succeeds it
returns that attempt's result after exactly `k + 1` calls with backoffs
`2^0, ..., 2^(k-1)`; and when all `m` attempts fail it makes exactly `m`
calls, sleeps `2^0, ..., 2^(m-2)`, and surfaces a single terminal error
wrapping the last attempt's cause (never an earlier one). -/
theorem retry_state_machine {E R : Type} (attempt : ℕ → Except E R)
    (es : ℕ → E) (m : ℕ) (hm : 1 ≤ m) :
    (process_video_with_retry attempt m).calls ≤ m ∧
    List.Chain' (· < ·) (process_video_with_retry attempt m).sleeps ∧
    (∀ k r, k < m → (∀ j, j < k → attempt j = .error (es j)) →
      attempt k = .ok r →
      (process_video_with_retry attempt m).result = .ok r ∧
      (process_video_with_retry attempt m).sleeps =
        (List.range k).map (fun n => 2 ^ n) ∧
      (process_video_with_retry attempt m).calls = k + 1) ∧
    ((∀ j, j < m → attempt j = .error (es j)) →
      (process_video_with_retry attempt m).result =
        .error (.allFailed m (some (es (m - 1)))) ∧
      (process_video_with_retry attempt m).sleeps =
        (List.range (m - 1)).map (fun n => 2 ^ n) ∧
      (process_video_with_retry attempt m).calls = m) := by
  refine ⟨?_, ?_, ?_, ?_⟩
  · have h := retryLoop_calls_le attempt m none (List.range m)
    rw [process_video_with_retry]
    simpa using h
  · rw [process_video_with_retry]
    have hsub := retryLoop_sleeps_sublist attempt m none (List.range m)
    have hpw : (((List.range m).filter (fun n => n < m - 1)).map
        (fun n => 2 ^ n)).Pairwise (· < ·) := by
      rw [List.pairwise_map]
      exact List.Pairwise.imp
        (fun hab => Nat.pow_lt_pow_right (by omega) hab)
        (List.Pairwise.filter _ (List.pairwise_lt_range m))
    exact (List.Pairwise.sublist hsub hpw).chain'
  · intro k r hk hfail hok
    exact retry_first_success_general attempt m k r hk
      (fun j hj => by rw [hfail j hj]; rfl) hok
  · intro h
    exact retry_all_fail_general attempt es m hm h

/-- An attempt oracle that fails on the first attempt and succeeds on the
second. -/
def attemptFailThenOk : ℕ → Except String ℕ :=
  fun j => if j = 0 then .error "e0" else .ok 42

/-- Witness for C4: one failure then one success under `max_retries = 2`
returns the second attempt's result after one backoff of 1 second. -/
theorem retry_state_machine_witness :
    (process_video_with_retry attemptFailThenOk 2).result = .ok 42 ∧
    (process_video_with_retry attemptFailThenOk 2).sleeps =
      (List.range 1).map (fun n => 2 ^ n) ∧
    (process_video_with_retry attemptFailThenOk 2).calls = 1 + 1 :=
  (retry_state_machine attemptFailThenOk (fun _ => "e0") 2 (by omega)).2.2.1 1 42
    (by omega)
    (fun j hj => by
      have hj0 : j = 0 := by omega
      subst hj0
      rfl)
    rfl

/-- The attempt oracle of a job whose input fails validation: every call of
`process_video` raises the same validation error. -/
def attemptAlwaysInvalid : ℕ → Except ValidationError JobResult :=
  fun _ => .error .fileEmpty

/-- C3 counterexample.  With `max_retries = 2` and an input that fails
validation on every attempt, `process_video_with_retry` invokes the
pipeline twice, not once, and sleeps a 1-second backoff in between: the
`except Exception` at line 470 catches validation errors like any other
failure, so an invalid input is retried rather than terminal. -/
theorem invalid_input_not_terminal :
    (process_video_with_retry attemptAlwaysInvalid 2).calls = 2 ∧
    (process_video_with_retry attemptAlwaysInvalid 2).calls ≠ 1 ∧
    (process_video_with_retry attemptAlwaysInvalid 2).sleeps = [1] ∧
    (process_video_with_retry attemptAlwaysInvalid 2).sleeps ≠ [] := by
  refine ⟨rfl, by decide, rfl, by decide⟩

/-- C3 (amended).  An input that fails validation is retried like any other
failure: for every `max_retries = m ≥ 1`, the pipeline is invoked exactly
`m` times, a backoff of `2^n` seconds is slept after each failed attempt
`n < m - 1`, and a single terminal error wrapping the last attempt's
validation error is then surfaced. -/
theorem invalid_input_retried (m : ℕ) (hm : 1 ≤ m) (v : ValidationError) :
    (process_video_with_retry
        (fun _ => (.error v : Except ValidationError JobResult)) m).result =
      .error (.allFailed m (some v)) ∧
    (process_video_with_retry
        (fun _ => (.error v : Except ValidationError JobResult)) m).sleeps =
      (List.range (m - 1)).map (fun n => 2 ^ n) ∧
    (process_video_with_retry
        (fun _ => (.error v : Except ValidationError JobResult)) m).calls = m :=
  retry_all_fail_general (fun _ => .error v) (fun _ => v) m hm
    (fun j hj => rfl)

/-- Witness for C3 at `max_retries = 2` and the empty-file validation
error. -/
theorem invalid_input_retried_witness :
    (process_video_with_retry
        (fun _ => (.error ValidationError.fileEmpty :
          Except ValidationError JobResult)) 2).result =
      .error (.allFailed 2 (some .fileEmpty)) ∧
    (process_video_with_retry
        (fun _ => (.error ValidationError.fileEmpty :
          Except ValidationError JobResult)) 2).sleeps =
      (List.range 1).map (fun n => 2 ^ n) ∧
    (process_video_with_retry
        (fun _ => (.error ValidationError.fileEmpty :
          Except ValidationError JobResult)) 2).calls = 2 :=
  invalid_input_retried 2 (by omega) .fileEmpty

end DanceAnalyzer
